import Mathlib

set_option autoImplicit false

namespace DjangoMcp

/-! Shallow embedding of the django-mcp transport-mounting dispatcher and of the
example bootstrap script `examples/http_stateless_example.py`.

The dispatcher itself (`mount_mcp_server` / `mount_http_stateless_mcp_server`)
lives in the external `django_mcp` package and is not part of the visible
source; following the specification, it is modelled here from the spec's words
(each such definition is marked `Modelled from the spec:`).  The bootstrap
guard of the example script is embedded directly from the source file. -/

/-- Option values that can appear in the options mapping passed to `mount`:
booleans, numbers, strings, and ordered sequences of strings (per spec section 6). -/
inductive Value where
  | bool (b : Bool)
  | num (q : Rat)
  | str (s : String)
  | strList (l : List String)
  deriving DecidableEq

/-- Modelled from the spec: the `transportType` enum with its two known
variants `sse` and `http_stateless` (spec section 3, MountConfig). -/
inductive TransportType where
  | sse
  | httpStateless
  deriving DecidableEq

/-- Modelled from the spec: the error raised synchronously by `mount` for
invalid or missing mount arguments (spec section 7). -/
inductive ConfigurationError where
  | unknownTransportType (given : String)
  | invalidBasePath (path : String)
  | invalidOptionValue (key : String)
  deriving DecidableEq

/-- Modelled from the spec: decoding of the `transportType` selector string;
only the two known variants decode, every other string is rejected. -/
def parseTransportType (s : String) : Option TransportType :=
  if s = "sse" then some TransportType.sse
  else if s = "http_stateless" then some TransportType.httpStateless
  else none

/-- Modelled from the spec: the option keys recognized per transport
(spec section 6 configuration-options table). -/
def recognizedKeys : TransportType → List String
  | TransportType.sse => ["enableCachePersistSessions"]
  | TransportType.httpStateless =>
      ["jsonResponse", "requestTimeout", "corsEnabled", "corsOrigins", "healthCheckEnabled"]

/-- Whether a key is recognized for the given transport. -/
def isRecognizedKey (t : TransportType) (k : String) : Bool :=
  (recognizedKeys t).contains k

/-- Modelled from the spec: the per-key type check for recognized option keys
(`jsonResponse` must be boolean, `requestTimeout` a positive number, and so on,
spec sections 4.1 and 6).  Unrecognized keys are not type-checked. -/
def valueTypeOk (t : TransportType) (key : String) (v : Value) : Bool :=
  match t, key, v with
  | TransportType.sse, "enableCachePersistSessions", Value.bool _ => true
  | TransportType.sse, "enableCachePersistSessions", _ => false
  | TransportType.httpStateless, "jsonResponse", Value.bool _ => true
  | TransportType.httpStateless, "jsonResponse", _ => false
  | TransportType.httpStateless, "requestTimeout", Value.num q => decide (0 < q)
  | TransportType.httpStateless, "requestTimeout", _ => false
  | TransportType.httpStateless, "corsEnabled", Value.bool _ => true
  | TransportType.httpStateless, "corsEnabled", _ => false
  | TransportType.httpStateless, "corsOrigins", Value.strList _ => true
  | TransportType.httpStateless, "corsOrigins", _ => false
  | TransportType.httpStateless, "healthCheckEnabled", Value.bool _ => true
  | TransportType.httpStateless, "healthCheckEnabled", _ => false
  | _, _, _ => true

/-- Modelled from the spec: validation of the options mapping for the selected
transport; unrecognized keys are accepted and ignored, recognized keys with a
value of the wrong type fail with `ConfigurationError` (spec section 4.1). -/
def validateOptions (t : TransportType) : List (String × Value) → Except ConfigurationError Unit
  | [] => Except.ok ()
  | (k, v) :: rest =>
      if isRecognizedKey t k = true ∧ valueTypeOk t k v = false then
        Except.error (ConfigurationError.invalidOptionValue k)
      else validateOptions t rest

/-- Resolved per-transport option record carried by the composed application. -/
structure TransportOptions where
  enableCachePersistSessions : Bool
  jsonResponse : Bool
  requestTimeout : Option Rat
  corsEnabled : Bool
  corsOrigins : List String
  healthCheckEnabled : Bool
  deriving DecidableEq

/-- First bound value of a boolean key, or the default. -/
def lookupBool (opts : List (String × Value)) (k : String) (d : Bool) : Bool :=
  match opts.lookup k with
  | some (Value.bool b) => b
  | _ => d

/-- First bound value of a numeric key, when present. -/
def lookupNum (opts : List (String × Value)) (k : String) : Option Rat :=
  match opts.lookup k with
  | some (Value.num q) => some q
  | _ => none

/-- First bound value of a string-list key, or the default. -/
def lookupStrList (opts : List (String × Value)) (k : String) (d : List String) : List String :=
  match opts.lookup k with
  | some (Value.strList l) => l
  | _ => d

/-- Modelled from the spec: resolution of the options mapping into the
per-transport option record; only the keys recognized for the selected
transport are consulted, everything else is ignored (spec sections 3 and 6). -/
def resolveOptions : TransportType → List (String × Value) → TransportOptions
  | TransportType.sse, opts =>
      { enableCachePersistSessions := lookupBool opts "enableCachePersistSessions" false,
        jsonResponse := false,
        requestTimeout := none,
        corsEnabled := false,
        corsOrigins := [],
        healthCheckEnabled := false }
  | TransportType.httpStateless, opts =>
      { enableCachePersistSessions := false,
        jsonResponse := lookupBool opts "jsonResponse" false,
        requestTimeout := lookupNum opts "requestTimeout",
        corsEnabled := lookupBool opts "corsEnabled" false,
        corsOrigins := lookupStrList opts "corsOrigins" [],
        healthCheckEnabled := lookupBool opts "healthCheckEnabled" false }

/-- Modelled from the spec: the composed application, wrapping the borrowed
base application together with the selected transport and its resolved
options (spec section 3, ComposedApplication). -/
structure ComposedApplication (App : Type) where
  baseApp : App
  basePath : String
  transport : TransportType
  options : TransportOptions
  deriving DecidableEq

/-- Modelled from the spec: a base path is well formed when it is non-empty
and starts with a path separator (spec section 3, MountConfig invariant). -/
def validBasePath (s : String) : Bool :=
  match s.data with
  | [] => false
  | c :: _ => c = '/'

/-- Modelled from the spec: the transport mount dispatcher
`mount(baseApp, basePath, transportType, options)` of spec section 4.1.
`transportType = none` models the omitted Python argument, which defaults
to `"sse"`.  The function is not in the visible source (it lives in the
external `django_mcp` package); it is modelled from the spec's words. -/
def mount {App : Type} (baseApp : App) (basePath : String)
    (transportType : Option String) (options : List (String × Value)) :
    Except ConfigurationError (ComposedApplication App) :=
  match parseTransportType (transportType.getD "sse") with
  | none => Except.error (ConfigurationError.unknownTransportType (transportType.getD "sse"))
  | some t =>
      if validBasePath basePath = true then
        match validateOptions t options with
        | Except.error e => Except.error e
        | Except.ok _ =>
            Except.ok
              { baseApp := baseApp, basePath := basePath, transport := t,
                options := resolveOptions t options }
      else Except.error (ConfigurationError.invalidBasePath basePath)

/-- Modelled from the spec: the convenience variant
`mountHttpStateless(baseApp, basePath, options)` (spec section 4.1), written
here as its own construction over the http-stateless validation so that its
equivalence with `mount` is a theorem rather than a definition. -/
def mount_http_stateless_mcp_server {App : Type} (baseApp : App) (basePath : String)
    (options : List (String × Value)) :
    Except ConfigurationError (ComposedApplication App) :=
  if validBasePath basePath = true then
    match validateOptions TransportType.httpStateless options with
    | Except.error e => Except.error e
    | Except.ok _ =>
        Except.ok
          { baseApp := baseApp, basePath := basePath,
            transport := TransportType.httpStateless,
            options := resolveOptions TransportType.httpStateless options }
  else Except.error (ConfigurationError.invalidBasePath basePath)

/-- Where the composed application sends an incoming request. -/
inductive Handled where
  | base (request : String)
  | transport (t : TransportType) (request : String)
  | health
  deriving DecidableEq

/-- Modelled from the spec: request routing of the composed application —
the base-path entry goes to the selected transport handler, the health
sub-path (http-stateless only, when enabled) to the liveness response, and
everything else falls through to the base application (spec sections 4.1 and 6). -/
def route {App : Type} (c : ComposedApplication App) (request : String) : Handled :=
  if request = c.basePath then Handled.transport c.transport request
  else if c.transport = TransportType.httpStateless ∧
          c.options.healthCheckEnabled = true ∧
          request = c.basePath ++ "/health" then Handled.health
  else Handled.base request

/-- Request handling of the composed application: dispatch per `route`,
applying the wrapped base application, the (opaque, externally owned)
transport handler, or the liveness response. -/
def handle {α : Type} (c : ComposedApplication (String → α))
    (transportHandler : TransportType → String → α) (healthResponse : α)
    (request : String) : α :=
  match route c request with
  | Handled.base q => c.baseApp q
  | Handled.transport t q => transportHandler t q
  | Handled.health => healthResponse

/-- A request path lies under the base path when the base path is a prefix of it. -/
def liesUnder (basePath p : String) : Bool :=
  basePath.data.isPrefixOf p.data

/-! Helper lemmas shared by the claim theorems. -/

theorem mount_ok_inv {App : Type} {baseApp : App} {basePath : String}
    {transportType : Option String} {opts : List (String × Value)}
    {c : ComposedApplication App}
    (h : mount baseApp basePath transportType opts = Except.ok c) :
    c.baseApp = baseApp ∧ c.basePath = basePath ∧
      parseTransportType (transportType.getD "sse") = some c.transport ∧
      c.options = resolveOptions c.transport opts ∧
      validBasePath basePath = true := by
  unfold mount at h
  split at h
  · exact absurd h (by simp)
  · rename_i t hp
    split at h
    · rename_i hb
      split at h
      · exact absurd h (by simp)
      · cases h
        exact ⟨rfl, rfl, hp, rfl, hb⟩
    · exact absurd h (by simp)

theorem parseTransportType_none {s : String} (h1 : s ≠ "sse")
    (h2 : s ≠ "http_stateless") : parseTransportType s = none := by
  unfold parseTransportType
  rw [if_neg h1, if_neg h2]

/-- C1: for every base application, base path and options mapping, `mount`
with a `transportType` string that is not one of the two known variants fails
with `ConfigurationError` (an `Except.error`), returning no composed
application. -/
theorem mount_unknown_transport_fails {App : Type} (baseApp : App)
    (basePath : String) (opts : List (String × Value)) (t : String)
    (h1 : t ≠ "sse") (h2 : t ≠ "http_stateless") :
    mount baseApp basePath (some t) opts =
      Except.error (ConfigurationError.unknownTransportType t) := by
  unfold mount
  simp only [Option.getD_some]
  rw [parseTransportType_none h1 h2]

/-- Witness for C1 at the concrete unknown transport string "websocket". -/
theorem mount_unknown_transport_fails_witness :
    mount () "/mcp" (some "websocket") [] =
      Except.error (ConfigurationError.unknownTransportType "websocket") :=
  mount_unknown_transport_fails () "/mcp" [] "websocket" (by decide) (by decide)

theorem route_at_base_path {App : Type} (c : ComposedApplication App) :
    route c c.basePath = Handled.transport c.transport c.basePath := by
  unfold route
  rw [if_pos rfl]

theorem route_at_health {App : Type} (c : ComposedApplication App)
    (hT : c.transport = TransportType.httpStateless)
    (hh : c.options.healthCheckEnabled = true)
    (hne : ¬ c.basePath ++ "/health" = c.basePath) :
    route c (c.basePath ++ "/health") = Handled.health := by
  unfold route
  rw [if_neg hne, if_pos ⟨hT, hh, rfl⟩]

theorem route_elsewhere {App : Type} (c : ComposedApplication App) (p : String)
    (h1 : ¬ p = c.basePath) (h2 : ¬ p = c.basePath ++ "/health") :
    route c p = Handled.base p := by
  unfold route
  rw [if_neg h1, if_neg (fun hc => h2 hc.2.2)]

theorem liesUnder_self (s : String) : liesUnder s s = true := by
  unfold liesUnder
  rw [List.isPrefixOf_iff_prefix]

theorem liesUnder_append (s t : String) : liesUnder s (s ++ t) = true := by
  unfold liesUnder
  rw [String.data_append, List.isPrefixOf_iff_prefix]
  exact List.prefix_append _ _

/-- C2: with `basePath = "/mcp"` and `transportType = "http_stateless"`, the
composed application routes `"/mcp"` to the http-stateless transport handler,
routes `"/mcp/health"` to the liveness response when `healthCheckEnabled` is
true, and routes every other sub-path under the base path to the base
application rather than to either handler. -/
theorem mount_http_stateless_routing {App : Type} (baseApp : App)
    (opts : List (String × Value)) (c : ComposedApplication App)
    (h : mount baseApp "/mcp" (some "http_stateless") opts = Except.ok c) :
    route c "/mcp" = Handled.transport TransportType.httpStateless "/mcp" ∧
    (c.options.healthCheckEnabled = true → route c "/mcp/health" = Handled.health) ∧
    (∀ p : String, liesUnder "/mcp" p = true → p ≠ "/mcp" → p ≠ "/mcp/health" →
      route c p = Handled.base p) := by
  obtain ⟨-, hbp, hpt, -, -⟩ := mount_ok_inv h
  have hT : c.transport = TransportType.httpStateless :=
    (Option.some.inj hpt).symm
  refine ⟨?_, ?_, ?_⟩
  · have := route_at_base_path c
    rw [hbp, hT] at this
    exact this
  · intro hh
    have := route_at_health c hT hh (by rw [hbp]; decide)
    rw [hbp] at this
    have happ : ("/mcp" : String) ++ "/health" = "/mcp/health" := by decide
    rw [happ] at this
    exact this
  · intro p _ h1 h2
    refine route_elsewhere c p (by rw [hbp]; exact h1) ?_
    rw [hbp]
    intro hcon
    exact h2 (by rw [hcon]; decide)

/-- C5: every request whose path does not lie under the base path is forwarded
unchanged to the wrapped base application, and the base application's response
is returned unchanged. -/
theorem mount_pass_through {α : Type} (baseApp : String → α) (basePath : String)
    (transportType : Option String) (opts : List (String × Value))
    (c : ComposedApplication (String → α))
    (transportHandler : TransportType → String → α) (healthResponse : α)
    (h : mount baseApp basePath transportType opts = Except.ok c)
    (p : String) (hp : liesUnder basePath p = false) :
    handle c transportHandler healthResponse p = baseApp p := by
  obtain ⟨hba, hbp, -, -, -⟩ := mount_ok_inv h
  have h1 : ¬ p = c.basePath := by
    intro hc
    rw [hc, hbp] at hp
    rw [liesUnder_self] at hp
    exact absurd hp (by decide)
  have h2 : ¬ p = c.basePath ++ "/health" := by
    intro hc
    rw [hc, hbp] at hp
    rw [liesUnder_append] at hp
    exact absurd hp (by decide)
  unfold handle
  rw [route_elsewhere c p h1 h2, hba]

/-- C6: for every base application, well-formed base path and options mapping
that validates for the selected transport, `mount` with either known
`transportType` string returns a composed application without error. -/
theorem mount_known_transport_ok {App : Type} (baseApp : App) (basePath : String)
    (opts : List (String × Value)) (t : String)
    (ht : t = "sse" ∨ t = "http_stateless")
    (hbp : validBasePath basePath = true)
    (hopts : ∀ tt : TransportType, parseTransportType t = some tt →
      validateOptions tt opts = Except.ok ()) :
    ∃ c : ComposedApplication App,
      mount baseApp basePath (some t) opts = Except.ok c := by
  have hparse : ∃ tt : TransportType, parseTransportType t = some tt := by
    rcases ht with h | h <;> subst h
    · exact ⟨TransportType.sse, rfl⟩
    · exact ⟨TransportType.httpStateless, rfl⟩
  obtain ⟨tt, hparse⟩ := hparse
  refine ⟨{ baseApp := baseApp, basePath := basePath, transport := tt,
            options := resolveOptions tt opts }, ?_⟩
  unfold mount
  simp only [Option.getD_some]
  rw [hparse]
  dsimp only
  rw [if_pos hbp, hopts tt hparse]

/-- Witness for C6 at transport "sse", base path "/mcp" and empty options. -/
theorem mount_known_transport_ok_witness :
    ∃ c : ComposedApplication Unit, mount () "/mcp" (some "sse") [] = Except.ok c :=
  mount_known_transport_ok () "/mcp" [] "sse" (Or.inl rfl) (by decide)
    (fun tt h => by cases Option.some.inj h; rfl)

/-- Options used by the routing witness: json responses and health check on. -/
def exampleHttpOpts : List (String × Value) :=
  [("jsonResponse", Value.bool true), ("healthCheckEnabled", Value.bool true)]

/-- The composed application produced by the routing witness's mount call. -/
def exampleHttpComposed : ComposedApplication Unit :=
  { baseApp := (), basePath := "/mcp", transport := TransportType.httpStateless,
    options := { enableCachePersistSessions := false, jsonResponse := true,
                 requestTimeout := none, corsEnabled := false, corsOrigins := [],
                 healthCheckEnabled := true } }

/-- Witness for C2 at concrete request paths "/mcp", "/mcp/health" and "/mcp/tools". -/
theorem mount_http_stateless_routing_witness :
    route exampleHttpComposed "/mcp" = Handled.transport TransportType.httpStateless "/mcp" ∧
    route exampleHttpComposed "/mcp/health" = Handled.health ∧
    route exampleHttpComposed "/mcp/tools" = Handled.base "/mcp/tools" := by
  have h := mount_http_stateless_routing () exampleHttpOpts exampleHttpComposed rfl
  exact ⟨h.1, h.2.1 rfl, h.2.2 "/mcp/tools" (by decide) (by decide) (by decide)⟩

/-- Base application used by the pass-through witness. -/
def exampleBase : String → String := fun q => q ++ "!"

/-- The composed application produced by the pass-through witness's mount call. -/
def exampleSseComposed : ComposedApplication (String → String) :=
  { baseApp := exampleBase, basePath := "/mcp", transport := TransportType.sse,
    options := { enableCachePersistSessions := false, jsonResponse := false,
                 requestTimeout := none, corsEnabled := false, corsOrigins := [],
                 healthCheckEnabled := false } }

/-- Witness for C5 at the concrete outside path "/admin". -/
theorem mount_pass_through_witness :
    handle exampleSseComposed (fun _ q => q) "alive" "/admin" = exampleBase "/admin" :=
  mount_pass_through exampleBase "/mcp" (some "sse") [] exampleSseComposed
    (fun _ q => q) "alive" rfl "/admin" (by decide)

theorem lookup_cons_ne {β : Type} (a k : String) (v : β) (es : List (String × β))
    (h : ¬ a = k) : List.lookup a ((k, v) :: es) = List.lookup a es := by
  have hb : (a == k) = false := beq_eq_false_iff_ne.mpr h
  simp [List.lookup, hb]

theorem resolveOptions_cons_unrecognized (t : TransportType) (k : String) (v : Value)
    (opts : List (String × Value)) (h : isRecognizedKey t k = false) :
    resolveOptions t ((k, v) :: opts) = resolveOptions t opts := by
  cases t with
  | sse =>
      have h1 : ¬ ("enableCachePersistSessions" : String) = k := by
        intro he
        rw [← he] at h
        exact absurd h (by decide)
      unfold resolveOptions lookupBool
      dsimp only
      rw [lookup_cons_ne _ _ _ _ h1]
  | httpStateless =>
      have h1 : ¬ ("jsonResponse" : String) = k := by
        intro he; rw [← he] at h; exact absurd h (by decide)
      have h2 : ¬ ("requestTimeout" : String) = k := by
        intro he; rw [← he] at h; exact absurd h (by decide)
      have h3 : ¬ ("corsEnabled" : String) = k := by
        intro he; rw [← he] at h; exact absurd h (by decide)
      have h4 : ¬ ("corsOrigins" : String) = k := by
        intro he; rw [← he] at h; exact absurd h (by decide)
      have h5 : ¬ ("healthCheckEnabled" : String) = k := by
        intro he; rw [← he] at h; exact absurd h (by decide)
      unfold resolveOptions lookupBool lookupNum lookupStrList
      dsimp only
      rw [lookup_cons_ne _ _ _ _ h1, lookup_cons_ne _ _ _ _ h2,
        lookup_cons_ne _ _ _ _ h3, lookup_cons_ne _ _ _ _ h4,
        lookup_cons_ne _ _ _ _ h5]

theorem validateOptions_cons_unrecognized (t : TransportType) (k : String) (v : Value)
    (rest : List (String × Value)) (h : isRecognizedKey t k = false) :
    validateOptions t ((k, v) :: rest) = validateOptions t rest := by
  rw [validateOptions, if_neg (fun hc => Bool.noConfusion (h.symm.trans hc.1))]

theorem mount_cons_unrecognized {App : Type} (baseApp : App) (basePath : String)
    (transportType : Option String) (tt : TransportType) (k : String) (v : Value)
    (opts : List (String × Value))
    (hparse : parseTransportType (transportType.getD "sse") = some tt)
    (h : isRecognizedKey tt k = false) :
    mount baseApp basePath transportType ((k, v) :: opts) =
      mount baseApp basePath transportType opts := by
  unfold mount
  rw [hparse]
  dsimp only
  rw [validateOptions_cons_unrecognized tt k v opts h,
    resolveOptions_cons_unrecognized tt k v opts h]

theorem validateOptions_error_of_mem (t : TransportType)
    (opts : List (String × Value)) (k : String) (v : Value)
    (hmem : (k, v) ∈ opts) (hrec : isRecognizedKey t k = true)
    (hbad : valueTypeOk t k v = false) :
    ∃ e : ConfigurationError, validateOptions t opts = Except.error e := by
  induction opts with
  | nil => cases hmem
  | cons hd tl ih =>
      obtain ⟨k0, v0⟩ := hd
      by_cases hc : isRecognizedKey t k0 = true ∧ valueTypeOk t k0 v0 = false
      · exact ⟨ConfigurationError.invalidOptionValue k0, by
          unfold validateOptions; rw [if_pos hc]⟩
      · rcases List.mem_cons.mp hmem with heq | hmem2
        · injection heq with hk hv
          subst hk; subst hv
          exact absurd ⟨hrec, hbad⟩ hc
        · obtain ⟨e, he⟩ := ih hmem2
          exact ⟨e, by unfold validateOptions; rw [if_neg hc]; exact he⟩

theorem mount_error_of_bad_option {App : Type} (baseApp : App) (basePath : String)
    (transportType : Option String) (tt : TransportType)
    (opts : List (String × Value)) (k : String) (v : Value)
    (hparse : parseTransportType (transportType.getD "sse") = some tt)
    (hmem : (k, v) ∈ opts) (hrec : isRecognizedKey tt k = true)
    (hbad : valueTypeOk tt k v = false) :
    ∃ e : ConfigurationError,
      mount baseApp basePath transportType opts = Except.error e := by
  unfold mount
  rw [hparse]
  dsimp only
  by_cases hb : validBasePath basePath = true
  · rw [if_pos hb]
    obtain ⟨e, he⟩ := validateOptions_error_of_mem tt opts k v hmem hrec hbad
    rw [he]
    exact ⟨e, rfl⟩
  · rw [if_neg hb]
    exact ⟨ConfigurationError.invalidBasePath basePath, rfl⟩

/-- C7: option keys not recognized for the selected transport are accepted and
ignored (mounting with such a key added gives exactly the result without it),
while a recognized key bound to a value of the wrong type makes `mount` fail
with `ConfigurationError`. -/
theorem mount_option_key_policy {App : Type} (baseApp : App) (basePath : String)
    (transportType : Option String) (tt : TransportType)
    (opts : List (String × Value)) (k1 : String) (v1 : Value)
    (k2 : String) (v2 : Value)
    (hparse : parseTransportType (transportType.getD "sse") = some tt) :
    (isRecognizedKey tt k1 = false →
      mount baseApp basePath transportType ((k1, v1) :: opts) =
        mount baseApp basePath transportType opts) ∧
    ((k2, v2) ∈ opts → isRecognizedKey tt k2 = true → valueTypeOk tt k2 v2 = false →
      ∃ e : ConfigurationError,
        mount baseApp basePath transportType opts = Except.error e) :=
  ⟨fun h => mount_cons_unrecognized baseApp basePath transportType tt k1 v1 opts hparse h,
   fun hm hr hb =>
     mount_error_of_bad_option baseApp basePath transportType tt opts k2 v2 hparse hm hr hb⟩

/-- Witness for C7: the unrecognized key "unknownKey" is ignored, and the
recognized key "requestTimeout" bound to the non-positive number -1 makes
`mount` fail. -/
theorem mount_option_key_policy_witness :
    (mount () "/mcp" (some "http_stateless")
        [("unknownKey", Value.bool true), ("requestTimeout", Value.num (-1))] =
      mount () "/mcp" (some "http_stateless") [("requestTimeout", Value.num (-1))]) ∧
    (∃ e : ConfigurationError,
      mount () "/mcp" (some "http_stateless") [("requestTimeout", Value.num (-1))] =
        Except.error e) := by
  have h := mount_option_key_policy () "/mcp" (some "http_stateless")
    TransportType.httpStateless [("requestTimeout", Value.num (-1))]
    "unknownKey" (Value.bool true) "requestTimeout" (Value.num (-1)) rfl
  exact ⟨h.1 (by decide), h.2 (List.mem_singleton.mpr rfl) (by decide) (by decide)⟩

/-- C8: at request time the dispatcher recovers and transforms nothing: every
response of the composed application is exactly the base application's
response, the transport handler's response, or the liveness response, each
taken unchanged (so a request-time error value of the handler is propagated
as is, and no `ConfigurationError` can arise at request time — `handle` is
total and its result type carries no such error). -/
theorem handle_no_local_recovery {α : Type} (c : ComposedApplication (String → α))
    (transportHandler : TransportType → String → α) (healthResponse : α)
    (p : String) :
    handle c transportHandler healthResponse p = c.baseApp p ∨
    handle c transportHandler healthResponse p = transportHandler c.transport p ∨
    handle c transportHandler healthResponse p = healthResponse := by
  unfold handle route
  by_cases h1 : p = c.basePath
  · rw [if_pos h1]
    exact Or.inr (Or.inl rfl)
  · rw [if_neg h1]
    by_cases h2 : c.transport = TransportType.httpStateless ∧
        c.options.healthCheckEnabled = true ∧ p = c.basePath ++ "/health"
    · rw [if_pos h2]
      exact Or.inr (Or.inr rfl)
    · rw [if_neg h2]
      exact Or.inl rfl

/-- C3: calling `mount` with the `transportType` argument omitted (modelled as
`none`) produces exactly the same result as calling it with `"sse"` and the
same other arguments. -/
theorem mount_default_transport_is_sse {App : Type} (baseApp : App)
    (basePath : String) (opts : List (String × Value)) :
    mount baseApp basePath none opts = mount baseApp basePath (some "sse") opts := rfl

/-- C4: the convenience variant `mountHttpStateless` produces exactly the same
composed application (or the same error) as `mount` with
`transportType = "http_stateless"` and the same options. -/
theorem mount_http_stateless_equiv {App : Type} (baseApp : App)
    (basePath : String) (opts : List (String × Value)) :
    mount_http_stateless_mcp_server baseApp basePath opts =
      mount baseApp basePath (some "http_stateless") opts := rfl

/-- Values a Django setting can hold in the example's configure call. -/
inductive SettingValue where
  | bool (b : Bool)
  | str (s : String)
  | num (q : Rat)
  | strList (l : List String)
  | pyNone
  deriving DecidableEq

/-- The global Django settings object: whether it has been configured, and the
mapping of setting names to values. -/
structure SettingsState where
  configured : Bool
  values : List (String × SettingValue)
  deriving DecidableEq

/-- The literal settings passed to `settings.configure(...)` by the example
script (source lines 19-38). -/
def exampleConfigureValues : List (String × SettingValue) :=
  [("DEBUG", SettingValue.bool true),
   ("SECRET_KEY", SettingValue.str "example-secret-key-for-demo-only"),
   ("ROOT_URLCONF", SettingValue.pyNone),
   ("INSTALLED_APPS", SettingValue.strList ["django_mcp"]),
   ("MCP_SERVER_TITLE", SettingValue.str "Django HTTP Stateless Example Server"),
   ("MCP_SERVER_INSTRUCTIONS",
     SettingValue.str "Example Django MCP server using HTTP stateless transport"),
   ("MCP_SERVER_VERSION", SettingValue.str "1.0.0"),
   ("MCP_LOG_LEVEL", SettingValue.str "INFO"),
   ("ALLOWED_HOSTS", SettingValue.strList ["*"]),
   ("MCP_HTTP_REQUEST_TIMEOUT", SettingValue.num 60),
   ("MCP_HTTP_CORS_ENABLED", SettingValue.bool true),
   ("MCP_HTTP_CORS_ORIGINS",
     SettingValue.strList ["http://localhost:3000", "http://127.0.0.1:3000"]),
   ("MCP_HTTP_JSON_RESPONSE", SettingValue.bool true),
   ("MCP_HTTP_HEALTH_CHECK_ENABLED", SettingValue.bool true)]

/-- `settings.configure(...)`: installs the given values and marks the global
settings object configured. -/
def configureSettings (vals : List (String × SettingValue)) : SettingsState :=
  { configured := true, values := vals }

/-- The example script's bootstrap block (source lines 18-38):
`if not settings.configured: settings.configure(DEBUG=True, ...)`. -/
def bootstrapSettings (s : SettingsState) : SettingsState :=
  if s.configured = true then s else configureSettings exampleConfigureValues

/-- C9: when the global settings object is already configured before the
script runs, the bootstrap block leaves the settings state — in particular
every pre-existing setting value — unchanged. -/
theorem bootstrap_preserves_configured_settings (s : SettingsState)
    (h : s.configured = true) :
    bootstrapSettings s = s ∧
    ∀ k : String, (bootstrapSettings s).values.lookup k = s.values.lookup k := by
  have heq : bootstrapSettings s = s := by
    unfold bootstrapSettings
    rw [if_pos h]
  exact ⟨heq, fun k => by rw [heq]⟩

/-- Witness for C9 at a concrete pre-configured settings state. -/
theorem bootstrap_preserves_configured_settings_witness :
    bootstrapSettings { configured := true, values := [("DEBUG", SettingValue.bool false)] } =
      { configured := true, values := [("DEBUG", SettingValue.bool false)] } :=
  (bootstrap_preserves_configured_settings
    { configured := true, values := [("DEBUG", SettingValue.bool false)] } rfl).1

/-- An argument value at a `mount_mcp_server` call site: either the base
application or a path string. -/
inductive ArgVal (App : Type) where
  | app (a : App)
  | str (s : String)

/-- Python-style resolution of one parameter slot from its optional positional
binding and its optional keyword binding: exactly one of the two must be
present. -/
def pickArg {App : Type} (posBinding kwBinding : Option (ArgVal App)) :
    Option (ArgVal App) :=
  match posBinding, kwBinding with
  | some v, none => some v
  | none, some v => some v
  | _, _ => none

/-- Modelled from the spec: Python argument binding for the two leading
parameters of `mount_mcp_server`, whose names `django_http_app` and
`mcp_base_path` and positional order are taken from the example's call sites
(source lines 53-66); the function's own signature is not in the visible
source.  Returns the bound base application and base path, or nothing when
the call would raise a `TypeError`. -/
def bindAppPath {App : Type} (posArgs : List (ArgVal App))
    (kwArgs : List (String × ArgVal App)) : Option (App × String) :=
  match pickArg (posArgs.get? 0) (kwArgs.lookup "django_http_app"),
        pickArg (posArgs.get? 1) (kwArgs.lookup "mcp_base_path") with
  | some (ArgVal.app a), some (ArgVal.str p) => some (a, p)
  | _, _ => none

/-- A `mount_mcp_server` call site: binds the leading arguments per Python
calling convention, then runs the dispatcher on the bound values. -/
def mount_mcp_server_call {App : Type} (posArgs : List (ArgVal App))
    (kwArgs : List (String × ArgVal App)) (transportType : Option String)
    (options : List (String × Value)) :
    Option (Except ConfigurationError (ComposedApplication App)) :=
  match bindAppPath posArgs kwArgs with
  | some (a, p) => some (mount a p transportType options)
  | none => none

/-- C10: passing the base application and base path positionally produces
exactly the same composed application as passing the same values via the
keywords `django_http_app` and `mcp_base_path`. -/
theorem mount_call_positional_eq_keyword {App : Type} (a : App) (p : String)
    (transportType : Option String) (options : List (String × Value)) :
    mount_mcp_server_call [ArgVal.app a, ArgVal.str p] [] transportType options =
      mount_mcp_server_call []
        [("django_http_app", ArgVal.app a), ("mcp_base_path", ArgVal.str p)]
        transportType options := rfl

end DjangoMcp
